import Mathlib

/-!
Verification of the Cassandra persistence adapter
(`common/persistence/cassandra/cassandraPersistence.go`).

The Go file is shallowly embedded: each store operation becomes a pure
function.  Interactions with the Cassandra session are made explicit as
inputs: the row(s) a failed compare-and-swap hands back, the
applied/not-applied bit of a batch, and the error kind of a failed call
(`isTimeoutError` / `isThrottlingError` are summarised by the
`StoreErrorKind` enumeration).  The batches the operations build are
reified as lists of `Stmt`, one constructor per CQL template, carrying
the parameters the proofs below inspect; the long column lists marshalled
into the `execution` user-defined type are collapsed into a payload tag,
since no property below depends on them.
-/

namespace CadenceCassandra

/-! ### Constants from cassandraPersistence.go -/

def emptyDomainID : String := "10000000-0000-f000-f000-000000000000"

def emptyRunID : String := "30000000-0000-f000-f000-000000000000"

def permanentRunID : String := "30000000-0000-f000-f000-000000000001"

/-- Row types for table `executions` (`rowTypeShard = iota`, ...). -/
def rowTypeShard : Int := 0

def rowTypeExecution : Int := 1

def rowTypeTransferTask : Int := 2

def rowTypeTimerTask : Int := 3

def rowTypeReplicationTask : Int := 4

/-- Row types for table `tasks`. -/
def rowTypeTask : Int := 0

def rowTypeTaskList : Int := 1

def taskListTaskID : Int := -12345

/-- Id of the first range of a new task list. -/
def initialRangeID : Int := 1

def rowTypeExecutionTaskID : Int := -10

def rowTypeShardTaskID : Int := -11

def emptyInitiatedID : Int := -7

/-- Modelled from the spec: `common.EmptyVersion`, the sentinel version used
when no replication state is present, is defined in the shared `common`
package, which is not part of this file. -/
def emptyVersion : Int := -24

/-- Modelled from the spec: `p.UnknownNumRowsAffected`, the explicit
"unknown rows affected" sentinel of the shared persistence package, which is
not part of this file; per the spec it is an explicit sentinel that must not
be confused with a real count such as zero. -/
def unknownNumRowsAffected : Int := -1

/-- Modelled from the spec: the workflow close-status enumeration lives in
the shared persistence package; only `None` (the zero value) is compared
against in this file. -/
def workflowCloseStatusNone : Int := 0

/-- Workflow execution states (`p.WorkflowState*`).  `other` stands for any
value outside the four named states, so the `default` arm of the Go
switches stays representable. -/
inductive WorkflowState
  | created
  | running
  | completed
  | zombie
  | other
deriving DecidableEq, Repr

/-- Creation modes (`p.CreateWorkflowMode*`). -/
inductive CreateWorkflowMode
  | brandNew
  | workflowIDReuse
  | continueAsNew
  | zombie
deriving DecidableEq, Repr

/-- Outcome classification of a failed gocql call, summarising
`isTimeoutError` and `isThrottlingError`. -/
inductive StoreErrorKind
  | timeout
  | throttling
  | other
deriving DecidableEq, Repr

/-! ### Rows handed back by a rejected CAS -/

/-- The fields `createWorkflowExecutionInfo` extracts from the `execution`
column that the error paths of this file actually use (run id, create
request id, state, close status). -/
structure ExecutionSnapshot where
  runID : String
  createRequestID : String
  state : WorkflowState
  closeStatus : Int
deriving DecidableEq, Repr

/-- One row returned by Cassandra for a rejected conditional write, as the
Go code reads it out of the `map[string]interface{}`.  `rowType` is `none`
when the `type` column is absent (the Go code ok-checks this assertion and
breaks its scan loop).  `runID` and `currentRunID` are read with unchecked
assertions in Go, so they are plain fields here; a null uuid column scans
as the zero uuid string.  `lastWriteVersion` stands for
`replication_state.last_write_version`, the only field of that column the
error paths read. -/
structure ReturnedRow where
  rowType : Option Int
  runID : String
  rangeID : Option Int
  nextEventID : Option Int
  currentRunID : String
  execution : Option ExecutionSnapshot
  lastWriteVersion : Int
deriving DecidableEq, Repr

/-! ### Error taxonomy

Each constructor is one of the Go error types returned by this file.  The
payloads are the data the Go code stores in the error struct or
interpolates into its message: `shardAlreadyExists` carries
`shard["shard_id"]` and `shard["range_id"]` of the blocking row,
`shardOwnershipLost` carries the store's `d.shardID`,
`conditionFailedAllColumns` is the catch-all `ConditionFailedError` whose
message carries every returned column, while `conditionFailed` is the same
Go type with only the scalar mismatch data in its message. -/
inductive PersistError
  | shardAlreadyExists (blockingShardID : Int) (blockingRangeID : Int)
  | shardOwnershipLost (shardID : Int)
  | workflowExecutionAlreadyStarted (runID : String) (createRequestID : String)
      (state : WorkflowState) (closeStatus : Int) (lastWriteVersion : Int)
  | currentWorkflowConditionFailed
  | conditionFailed
  | conditionFailedAllColumns (rows : List ReturnedRow)
  | timeout
  | serviceBusy
  | internalService
  | entityNotExists
deriving DecidableEq, Repr

def PersistError.isShardOwnershipLost : PersistError → Bool
  | .shardOwnershipLost _ => true
  | _ => false

/-! ### Failure classification, create path

`CreateWorkflowExecution` classifies a rejected batch inline
(`GetFailureReasonLoop`, lines 1122-1204): it walks the returned rows, and
for a shard row with a differing `range_id` returns `ShardOwnershipLost`;
at the first current-execution marker row it returns immediately
(`WorkflowExecutionAlreadyStarted` when the row carries an `execution`
column, else `CurrentWorkflowConditionFailed` or `ConditionFailed`); when
the rows are exhausted, or a row lacks the `type` column, it falls back to
`ShardOwnershipLost` "to force the application to reload the shard". -/
def createFailureReasonLoop (shardID : Int) (reqRangeID : Int) (reqRunID : String)
    (hasReplicationState : Bool) : List ReturnedRow → PersistError
  | [] => .shardOwnershipLost shardID
  | row :: rest =>
    match row.rowType with
    | none => .shardOwnershipLost shardID
    | some t =>
      if t = rowTypeShard then
        match row.rangeID with
        | some rangeID =>
          if rangeID ≠ reqRangeID then .shardOwnershipLost shardID
          else createFailureReasonLoop shardID reqRangeID reqRunID hasReplicationState rest
        | none => createFailureReasonLoop shardID reqRangeID reqRunID hasReplicationState rest
      else if t = rowTypeExecution ∧ row.runID = permanentRunID then
        match row.execution with
        | some executionInfo =>
          .workflowExecutionAlreadyStarted executionInfo.runID executionInfo.createRequestID
            executionInfo.state executionInfo.closeStatus
            (if hasReplicationState then row.lastWriteVersion else emptyVersion)
        | none =>
          if row.currentRunID ≠ reqRunID then .currentWorkflowConditionFailed
          else .conditionFailed
      else createFailureReasonLoop shardID reqRangeID reqRunID hasReplicationState rest

/-! ### Failure classification, update/reset paths -/

/-- Mutable locals of `getExecutionConditionalUpdateFailure`'s scan loop. -/
structure ClassifyState where
  rangeIDUnmatch : Bool
  actualRangeID : Int
  nextEventIDUnmatch : Bool
  actualNextEventID : Int
  runIDUnmatch : Bool
  actualCurrRunID : String
  allPrevious : List ReturnedRow
deriving DecidableEq, Repr

def classifyInit : ClassifyState :=
  { rangeIDUnmatch := false, actualRangeID := 0, nextEventIDUnmatch := false,
    actualNextEventID := 0, runIDUnmatch := false, actualCurrRunID := "",
    allPrevious := [] }

/-- The `GetFailureReasonLoop` of `getExecutionConditionalUpdateFailure`
(lines 2257-2292).  Flags accumulate over every scanned row; a row whose
`type` column is absent breaks the loop (without being appended to
`allPrevious`).  The Go multi-assignments `actualRangeID, ok = ...` write
the zero value on a failed type assertion, which the `none` arms mirror. -/
def classifyScan (requestRunID : String) (requestCondition : Int) (requestRangeID : Int)
    (requestConditionalRunID : String) : ClassifyState → List ReturnedRow → ClassifyState
  | s, [] => s
  | s, row :: rest =>
    match row.rowType with
    | none => s
    | some t =>
      let s1 :=
        if t = rowTypeShard then
          match row.rangeID with
          | some rangeID =>
            { s with actualRangeID := rangeID,
                     rangeIDUnmatch := s.rangeIDUnmatch || rangeID ≠ requestRangeID }
          | none => { s with actualRangeID := 0 }
        else if t = rowTypeExecution ∧ row.runID = requestRunID then
          match row.nextEventID with
          | some nextEventID =>
            { s with actualNextEventID := nextEventID,
                     nextEventIDUnmatch := s.nextEventIDUnmatch || nextEventID ≠ requestCondition }
          | none => { s with actualNextEventID := 0 }
        else if t = rowTypeExecution ∧ row.runID = permanentRunID then
          { s with actualCurrRunID := row.currentRunID,
                   runIDUnmatch := s.runIDUnmatch || row.currentRunID ≠ requestConditionalRunID }
        else s
      classifyScan requestRunID requestCondition requestRangeID requestConditionalRunID
        { s1 with allPrevious := s1.allPrevious ++ [row] } rest

/-- `getExecutionConditionalUpdateFailure` (lines 2246-2329): scan all
returned rows, then classify in priority order shard-token mismatch, then
current-run mismatch, then next-event-id mismatch, then the catch-all
`ConditionFailedError` carrying every returned column. -/
def getExecutionConditionalUpdateFailure (shardID : Int) (rows : List ReturnedRow)
    (requestRunID : String) (requestCondition : Int) (requestRangeID : Int)
    (requestConditionalRunID : String) : PersistError :=
  let s := classifyScan requestRunID requestCondition requestRangeID requestConditionalRunID
    classifyInit rows
  if s.rangeIDUnmatch then .shardOwnershipLost shardID
  else if s.runIDUnmatch then .currentWorkflowConditionFailed
  else if s.nextEventIDUnmatch then .conditionFailed
  else .conditionFailedAllColumns s.allPrevious

/-! ### Row predicates used to state the classifier's behaviour -/

/-- The row is a shard row whose returned `range_id` differs from the
caller's range id. -/
def shardMismatchB (requestRangeID : Int) (r : ReturnedRow) : Bool :=
  if r.rowType = some rowTypeShard then
    match r.rangeID with
    | some v => decide (v ≠ requestRangeID)
    | none => false
  else false

/-- The row is the current-execution marker row (and not the target run's
row) whose `current_run_id` differs from the caller's expected run id. -/
def currMismatchB (requestRunID requestConditionalRunID : String) (r : ReturnedRow) : Bool :=
  if r.rowType = some rowTypeExecution ∧ ¬ r.runID = requestRunID ∧ r.runID = permanentRunID then
    decide (r.currentRunID ≠ requestConditionalRunID)
  else false

/-- The row is the target run's execution row whose `next_event_id` differs
from the caller's condition. -/
def nextEventMismatchB (requestRunID : String) (requestCondition : Int) (r : ReturnedRow) : Bool :=
  if r.rowType = some rowTypeExecution ∧ r.runID = requestRunID then
    match r.nextEventID with
    | some v => decide (v ≠ requestCondition)
    | none => false
  else false

/-! ### Shard store -/

/-- The shard row's fields that this development tracks: `CreateShard` and
`UpdateShard` write the full `templateShardType` column set, of which the
proofs below use the shard id, the owner and the range token (the other
ack-level and bookkeeping fields are carried by no property). -/
structure ShardInfoRecord where
  shardID : Int
  owner : String
  rangeID : Int
deriving DecidableEq, Repr

structure CreateShardRequest where
  shardInfo : ShardInfoRecord
deriving DecidableEq, Repr

structure UpdateShardRequest where
  shardInfo : ShardInfoRecord
  previousRangeID : Int
deriving DecidableEq, Repr

/-- `CreateShard` (lines 926-972): an `INSERT ... IF NOT EXISTS`.  `stored`
is the shard row currently in the store (the CAS applies iff it is absent);
`storeErr` is the error of a failed gocql call, if any.  Returns the new
store contents and the error result.  On rejection the error message
interpolates `shard["shard_id"]` and `shard["range_id"]` of the blocking
row. -/
def CreateShard (stored : Option ShardInfoRecord) (request : CreateShardRequest)
    (storeErr : Option StoreErrorKind) : Option ShardInfoRecord × Option PersistError :=
  match storeErr with
  | some .throttling => (stored, some .serviceBusy)
  | some _ => (stored, some .internalService)
  | none =>
    match stored with
    | none => (some request.shardInfo, none)
    | some shard => (some shard, some (.shardAlreadyExists shard.shardID shard.rangeID))

/-- `UpdateShard` (lines 1007-1060): an `UPDATE ... IF range_id = ?` against
the shard row, writing the caller's full shard record; the CAS applies iff
the row exists and its stored `range_id` equals `request.PreviousRangeID`.
On rejection the code returns `ShardOwnershipLostError{d.shardID}`
unconditionally. -/
def UpdateShard (dShardID : Int) (stored : Option ShardInfoRecord)
    (request : UpdateShardRequest) (storeErr : Option StoreErrorKind) :
    Option ShardInfoRecord × Option PersistError :=
  match storeErr with
  | some .throttling => (stored, some .serviceBusy)
  | some _ => (stored, some .internalService)
  | none =>
    match stored with
    | none => (none, some (.shardOwnershipLost dShardID))
    | some shard =>
      if shard.rangeID = request.previousRangeID then (some request.shardInfo, none)
      else (some shard, some (.shardOwnershipLost dShardID))

/-! ### Batch statements

One constructor per CQL template appended to an execution-store batch,
carrying the parameters the properties below inspect.  The full marshalled
`execution` column list is collapsed into `ExecPayloadKind`, which records
which of the three template variants (plain / with `replication_state` /
with `version_histories`) was chosen. -/

inductive ExecPayloadKind
  | plain
  | withReplicationState
  | withVersionHistories
deriving DecidableEq, Repr

inductive SubCollectionKind
  | activityMap
  | timerMap
  | requestCancelMap
  | childExecutionsMap
  | signalMap
  | signalRequested
deriving DecidableEq, Repr

inductive Stmt
  /-- `templateCreateCurrentWorkflowExecutionQuery`: `INSERT ... IF NOT
  EXISTS` of the current-execution marker row. -/
  | createCurrentExecution (domainID workflowID runID createRequestID : String)
      (state : WorkflowState) (closeStatus : Int) (startVersion lastWriteVersion : Int)
  /-- `templateUpdateCurrentWorkflowExecutionQuery`: update of the marker
  row gated on `IF current_run_id = condCurrentRunID` only. -/
  | updateCurrentExecution (newRunID createRequestID : String) (state : WorkflowState)
      (closeStatus : Int) (startVersion lastWriteVersion : Int)
      (domainID workflowID : String) (condCurrentRunID : String)
  /-- `templateUpdateCurrentWorkflowExecutionForNewQuery`: as above plus the
  `workflow_last_write_version` and `workflow_state` predicates. -/
  | updateCurrentExecutionForNew (newRunID createRequestID : String) (state : WorkflowState)
      (closeStatus : Int) (startVersion lastWriteVersion : Int)
      (domainID workflowID : String) (condCurrentRunID : String)
      (condLastWriteVersion : Int) (condState : WorkflowState)
  /-- `templateCreateWorkflowExecution*Query`: unconditional insert of the
  run's execution row. -/
  | insertExecution (domainID workflowID runID : String) (nextEventID : Int)
      (payload : ExecPayloadKind)
  /-- `templateUpdateWorkflowExecution*Query` (+ optional
  `templateUpdateWorkflowExecutionConditionSuffix`): write of the run's
  execution row, gated on `IF next_event_id = c` when `cond = some c`. -/
  | updateExecution (domainID workflowID runID : String) (nextEventID : Int)
      (payload : ExecPayloadKind) (cond : Option Int)
  /-- `templateCheckWorkflowExecutionQuery`: `SET next_event_id =
  setNextEventID ... IF next_event_id = condNextEventID`. -/
  | checkExecution (domainID workflowID runID : String)
      (setNextEventID condNextEventID : Int)
  /-- One per-key upsert/delete batch over a sub-collection of the run
  (contents carried by no property). -/
  | subCollectionOps (kind : SubCollectionKind) (runID : String)
      (useCondition : Bool) (cond : Int)
  | insertTransferTask (domainID workflowID runID : String) (taskID : Int)
  | insertReplicationTask (domainID workflowID runID : String) (taskID : Int)
  | insertTimerTask (domainID workflowID runID : String) (taskID : Int)
  /-- `templateUpdateLeaseQuery`: `SET range_id = rangeID ... IF range_id =
  condRangeID` against the shard row. -/
  | updateLease (rangeID condRangeID : Int)
deriving DecidableEq, Repr

/-- The statement inserts or updates the current-execution marker row. -/
def Stmt.touchesCurrentRow : Stmt → Bool
  | .createCurrentExecution .. => true
  | .updateCurrentExecution .. => true
  | .updateCurrentExecutionForNew .. => true
  | _ => false

/-- The statement is the `templateUpdateCurrentWorkflowExecutionForNewQuery`
variant, which adds the `workflow_last_write_version` and `workflow_state`
predicates. -/
def Stmt.isForNewVariant : Stmt → Bool
  | .updateCurrentExecutionForNew .. => true
  | _ => false

def Stmt.isCheckExecution : Stmt → Bool
  | .checkExecution .. => true
  | _ => false

/-! ### Execution store requests -/

structure ReplicationStateFields where
  startVersion : Int
  lastWriteVersion : Int
deriving DecidableEq, Repr

/-- `p.InternalCreateWorkflowExecutionRequest`, restricted to the fields the
control flow and the reified statements read.  `versionHistories = true`
stands for a non-nil `request.VersionHistories`. -/
structure CreateWorkflowExecutionRequest where
  domainID : String
  workflowID : String
  runID : String
  requestID : String
  createWorkflowMode : CreateWorkflowMode
  state : WorkflowState
  closeStatus : Int
  previousRunID : String
  previousLastWriteVersion : Int
  replicationState : Option ReplicationStateFields
  versionHistories : Bool
  nextEventID : Int
  rangeID : Int
  transferTaskIDs : List Int
  replicationTaskIDs : List Int
  timerTaskIDs : List Int
deriving DecidableEq, Repr

/-- Modelled from the spec: `p.ValidateCreateWorkflowStateCloseStatus` lives
in the shared persistence package, which is not part of this file.  Per the
spec a run is created in state Created, Running or Zombie, always with
close status None; other combinations are rejected with an
`InternalServiceError`. -/
def ValidateCreateWorkflowStateCloseStatus (state : WorkflowState) (closeStatus : Int) :
    Option PersistError :=
  if closeStatus = workflowCloseStatusNone ∧
      (state = .created ∨ state = .running ∨ state = .zombie) then none
  else some .internalService

/-- The current-execution marker row, as read by the assert-not-current
check. -/
structure CurrentExecutionRow where
  currentRunID : String
deriving DecidableEq, Repr

/-- Modelled from the spec: `assertNotCurrentExecution` is called by the
create and update paths but defined outside this file.  Per the spec, "the
store first asserts no CurrentExecutionPointer names this run (else fails
with `InternalServiceError`), since zombie runs must never become
current". -/
def assertNotCurrentExecution (currentRow : Option CurrentExecutionRow) (runID : String) :
    Option PersistError :=
  match currentRow with
  | none => none
  | some row => if row.currentRunID = runID then some .internalService else none

/-- Result of `CreateWorkflowExecutionWithinBatch`: the statements appended
to the batch, together with the request as left behind by the function
(which overwrites `request.CreateWorkflowMode` in place through the shared
pointer when it downgrades `WorkflowIDReuse`). -/
structure WithinBatchResult where
  request : CreateWorkflowExecutionRequest
  stmts : List Stmt
deriving DecidableEq, Repr

/-- `CreateWorkflowExecutionWithinBatch` (lines 1209-1535): validate the
state/close-status pair, derive the versions, silently downgrade
`WorkflowIDReuse` to `ContinueAsNew` when the replication state is nil
(mutating the request in place), append the mode's current-execution-row
statement (none for `Zombie`, which instead re-checks the state), and
append the unconditional insert of the new run's execution row in the
payload variant matching `ReplicationState` / `VersionHistories`. -/
def CreateWorkflowExecutionWithinBatch (dShardID : Int)
    (request : CreateWorkflowExecutionRequest) : Except PersistError WithinBatchResult :=
  match ValidateCreateWorkflowStateCloseStatus request.state request.closeStatus with
  | some e => .error e
  | none =>
    let startVersion := match request.replicationState with
      | some rs => rs.startVersion
      | none => emptyVersion
    let lastWriteVersion := match request.replicationState with
      | some rs => rs.lastWriteVersion
      | none => emptyVersion
    let request :=
      if request.replicationState = none ∧ request.createWorkflowMode = .workflowIDReuse then
        { request with createWorkflowMode := .continueAsNew }
      else request
    let payload : ExecPayloadKind :=
      if request.replicationState.isSome then .withReplicationState
      else if request.versionHistories then .withVersionHistories
      else .plain
    let executionInsert : Stmt :=
      .insertExecution request.domainID request.workflowID request.runID
        request.nextEventID payload
    match request.createWorkflowMode with
    | .continueAsNew =>
      .ok { request := request,
            stmts := [.updateCurrentExecution request.runID request.requestID request.state
                        request.closeStatus startVersion lastWriteVersion
                        request.domainID request.workflowID request.previousRunID,
                      executionInsert] }
    | .workflowIDReuse =>
      .ok { request := request,
            stmts := [.updateCurrentExecutionForNew request.runID request.requestID request.state
                        request.closeStatus startVersion lastWriteVersion
                        request.domainID request.workflowID request.previousRunID
                        request.previousLastWriteVersion .completed,
                      executionInsert] }
    | .brandNew =>
      .ok { request := request,
            stmts := [.createCurrentExecution request.domainID request.workflowID request.runID
                        request.requestID request.state request.closeStatus
                        startVersion lastWriteVersion,
                      executionInsert] }
    | .zombie =>
      if ¬ request.state = .zombie ∨ ¬ request.closeStatus = workflowCloseStatusNone then
        .error .internalService
      else
        .ok { request := request, stmts := [executionInsert] }

def createTransferTasks (domainID workflowID runID : String) (taskIDs : List Int) : List Stmt :=
  taskIDs.map (Stmt.insertTransferTask domainID workflowID runID)

def createReplicationTasks (domainID workflowID runID : String) (taskIDs : List Int) : List Stmt :=
  taskIDs.map (Stmt.insertReplicationTask domainID workflowID runID)

def createTimerTasks (domainID workflowID runID : String) (taskIDs : List Int) : List Stmt :=
  taskIDs.map (Stmt.insertTimerTask domainID workflowID runID)

/-- The full batch built by `CreateWorkflowExecution` (lines 1062-1096):
the within-batch statements, the derived transfer / replication / timer
task inserts, and the shard-lease re-check. -/
def CreateWorkflowExecutionBatch (dShardID : Int)
    (request : CreateWorkflowExecutionRequest) : Except PersistError (List Stmt) :=
  match CreateWorkflowExecutionWithinBatch dShardID request with
  | .error e => .error e
  | .ok r =>
    .ok (r.stmts
      ++ createTransferTasks request.domainID request.workflowID request.runID
           request.transferTaskIDs
      ++ createReplicationTasks request.domainID request.workflowID request.runID
           request.replicationTaskIDs
      ++ createTimerTasks request.domainID request.workflowID request.runID
           request.timerTaskIDs
      ++ [.updateLease request.rangeID request.rangeID])

/-- Outcome of `MapExecuteBatchCAS`: either the applied bit plus the rows
handed back, or an error from the session. -/
inductive BatchOutcome
  | result (applied : Bool) (rows : List ReturnedRow)
  | failure (e : StoreErrorKind)
deriving DecidableEq, Repr

/-- `CreateWorkflowExecution` (lines 1062-1207): assert non-currency for
`Zombie` mode, build the batch, execute it, and on rejection classify via
the inline `GetFailureReasonLoop`.  A session timeout is surfaced as the
dedicated `TimeoutError`; throttling as `ServiceBusyError`; any other
session error as `InternalServiceError`. -/
def CreateWorkflowExecution (dShardID : Int) (request : CreateWorkflowExecutionRequest)
    (currentRow : Option CurrentExecutionRow) (outcome : BatchOutcome) :
    Option PersistError :=
  let go : Option PersistError :=
    match CreateWorkflowExecutionBatch dShardID request with
    | .error e => some e
    | .ok _ =>
      match outcome with
      | .failure .timeout => some .timeout
      | .failure .throttling => some .serviceBusy
      | .failure .other => some .internalService
      | .result true _ => none
      | .result false rows =>
        some (createFailureReasonLoop dShardID request.rangeID request.runID
          request.replicationState.isSome rows)
  if request.createWorkflowMode = .zombie then
    match assertNotCurrentExecution currentRow request.runID with
    | some e => some e
    | none => go
  else go

/-! ### Update / reset paths -/

/-- `p.InternalWorkflowExecutionInfo`, restricted to the fields the control
flow and the reified statements read (the remaining marshalled columns,
including the parent linkage that `updateMutableState` normalises to the
sentinel ids, live inside the collapsed payload). -/
structure ExecutionInfoRow where
  domainID : String
  workflowID : String
  runID : String
  createRequestID : String
  state : WorkflowState
  closeStatus : Int
  nextEventID : Int
deriving DecidableEq, Repr

/-- `updateMutableState` (lines 1648-1871): writes the run's execution row
via one of three templates according to whether `replicationState` or
`versionHistories` is populated, appending the `IF next_event_id =
condition` suffix when `useCondition` holds (`batchQueryHelper`). -/
def updateMutableState (executionInfo : ExecutionInfoRow)
    (replicationState : Option ReplicationStateFields) (versionHistories : Bool)
    (useCondition : Bool) (condition : Int) : Stmt :=
  let cond : Option Int := if useCondition then some condition else none
  if replicationState.isSome then
    .updateExecution executionInfo.domainID executionInfo.workflowID executionInfo.runID
      executionInfo.nextEventID .withReplicationState cond
  else if versionHistories then
    .updateExecution executionInfo.domainID executionInfo.workflowID executionInfo.runID
      executionInfo.nextEventID .withVersionHistories cond
  else
    .updateExecution executionInfo.domainID executionInfo.workflowID executionInfo.runID
      executionInfo.nextEventID .plain cond

/-- One workflow mutation (`p.InternalWorkflowMutation`), restricted to the
fields used here; `subCollectionsTouched` lists the sub-collections the
mutation writes. -/
structure WorkflowMutation where
  executionInfo : ExecutionInfoRow
  replicationState : Option ReplicationStateFields
  versionHistories : Bool
  condition : Int
  subCollectionsTouched : List SubCollectionKind
deriving DecidableEq, Repr

/-- Modelled from the spec: `applyWorkflowMutationBatch` is called by
`UpdateWorkflowExecution` but defined outside this file.  Per the spec
(§4.3) it appends the conditional update of the WorkflowExecutionRecord
gated on `next_event_id == condition`, plus the per-key sub-collection
mutations, "all sharing the single next_event_id gate". -/
def applyWorkflowMutationBatch (mutation : WorkflowMutation) : List Stmt :=
  updateMutableState mutation.executionInfo mutation.replicationState
      mutation.versionHistories true mutation.condition
    :: mutation.subCollectionsTouched.map
        (fun k => Stmt.subCollectionOps k mutation.executionInfo.runID true mutation.condition)

structure UpdateWorkflowExecutionRequest where
  rangeID : Int
  updateWorkflowMutation : WorkflowMutation
  continueAsNew : Option CreateWorkflowExecutionRequest
deriving DecidableEq, Repr

/-- The batch built by `UpdateWorkflowExecution` (lines 1873-1946): the
mutation statements; then, for continue-as-new, the new run's within-batch
statements plus its transfer and timer tasks, or otherwise the
current-execution-row repoint (skipped for Zombie-state updates, which
instead assert non-currency, and rejected for unknown states); and finally
the shard-lease re-check. -/
def UpdateWorkflowExecutionBatch (dShardID : Int) (request : UpdateWorkflowExecutionRequest)
    (currentRow : Option CurrentExecutionRow) : Except PersistError (List Stmt) :=
  let updateWorkflow := request.updateWorkflowMutation
  let executionInfo := updateWorkflow.executionInfo
  let mutationStmts := applyWorkflowMutationBatch updateWorkflow
  let leaseStmt : Stmt := .updateLease request.rangeID request.rangeID
  match request.continueAsNew with
  | some startRequest =>
    match CreateWorkflowExecutionWithinBatch dShardID startRequest with
    | .error e => .error e
    | .ok r =>
      .ok (mutationStmts ++ r.stmts
        ++ createTransferTasks startRequest.domainID startRequest.workflowID
             startRequest.runID startRequest.transferTaskIDs
        ++ createTimerTasks startRequest.domainID startRequest.workflowID
             startRequest.runID startRequest.timerTaskIDs
        ++ [leaseStmt])
  | none =>
    match executionInfo.state with
    | .zombie =>
      match assertNotCurrentExecution currentRow executionInfo.runID with
      | some e => .error e
      | none => .ok (mutationStmts ++ [leaseStmt])
    | .other => .error .internalService
    | _ =>
      let startVersion := match updateWorkflow.replicationState with
        | some rs => rs.startVersion
        | none => emptyVersion
      let lastWriteVersion := match updateWorkflow.replicationState with
        | some rs => rs.lastWriteVersion
        | none => emptyVersion
      .ok (mutationStmts
        ++ [.updateCurrentExecution executionInfo.runID executionInfo.createRequestID
              executionInfo.state executionInfo.closeStatus startVersion lastWriteVersion
              executionInfo.domainID executionInfo.workflowID executionInfo.runID]
        ++ [leaseStmt])

/-- `UpdateWorkflowExecution` (lines 1873-1975): build the batch, execute,
classify a rejection through `getExecutionConditionalUpdateFailure` with
the mutated run's id as both the target and the expected current run. -/
def UpdateWorkflowExecution (dShardID : Int) (request : UpdateWorkflowExecutionRequest)
    (currentRow : Option CurrentExecutionRow) (outcome : BatchOutcome) :
    Option PersistError :=
  let executionInfo := request.updateWorkflowMutation.executionInfo
  match UpdateWorkflowExecutionBatch dShardID request currentRow with
  | .error e => some e
  | .ok _ =>
    match outcome with
    | .failure .timeout => some .timeout
    | .failure .throttling => some .serviceBusy
    | .failure .other => some .internalService
    | .result true _ => none
    | .result false rows =>
      some (getExecutionConditionalUpdateFailure dShardID rows executionInfo.runID
        request.updateWorkflowMutation.condition request.rangeID executionInfo.runID)

/-- `p.InternalResetWorkflowExecutionRequest`, with the new-workflow
snapshot's collections flattened to the data the batch construction reads
(per-collection emptiness as element lists or counts). -/
structure ResetWorkflowExecutionRequest where
  rangeID : Int
  prevRunVersion : Int
  prevRunState : WorkflowState
  baseRunID : String
  baseRunNextEventID : Int
  condition : Int
  updateCurr : Bool
  currExecutionInfo : ExecutionInfoRow
  currReplicationState : Option ReplicationStateFields
  currVersionHistories : Bool
  currTransferTaskIDs : List Int
  currTimerTaskIDs : List Int
  currReplicationTaskIDs : List Int
  insertExecutionInfo : ExecutionInfoRow
  insertReplicationState : Option ReplicationStateFields
  insertVersionHistories : Bool
  insertTransferTaskIDs : List Int
  insertTimerTaskIDs : List Int
  insertReplicationTaskIDs : List Int
  insertActivityInfoCount : Nat
  insertTimerInfoCount : Nat
  insertRequestCancelInfoCount : Nat
  insertChildExecutionInfoCount : Nat
  insertSignalInfoCount : Nat
  insertSignalRequestedIDCount : Nat
deriving DecidableEq, Repr

/-- The batch built by `ResetWorkflowExecution` (lines 1978-2138), in
statement order: the current-execution-row repoint (conditioned also on
the previous run's version and state when replicated); the non-mutating
fork-point check when the base run differs from the current run; either
the conditional update of the current run plus its timer/transfer tasks,
or a non-mutating condition check on it; replication tasks; the
unconditional insert of the new run's state; the new run's sub-collection
resets (the `reset*Infos` helpers, defined outside this file, are modelled
from the spec as one per-collection statement each); the new run's
timer/transfer tasks; and the shard-lease re-check. -/
def ResetWorkflowExecutionBatch (dShardID : Int) (request : ResetWorkflowExecutionRequest) :
    List Stmt :=
  let currExecutionInfo := request.currExecutionInfo
  let insertExecutionInfo := request.insertExecutionInfo
  let startVersion := match request.insertReplicationState with
    | some rs => rs.startVersion
    | none => emptyVersion
  let lastWriteVersion := match request.insertReplicationState with
    | some rs => rs.lastWriteVersion
    | none => emptyVersion
  let currentStmt : Stmt :=
    match request.currReplicationState with
    | none =>
      .updateCurrentExecution insertExecutionInfo.runID insertExecutionInfo.createRequestID
        insertExecutionInfo.state insertExecutionInfo.closeStatus startVersion lastWriteVersion
        insertExecutionInfo.domainID insertExecutionInfo.workflowID currExecutionInfo.runID
    | some _ =>
      .updateCurrentExecutionForNew insertExecutionInfo.runID insertExecutionInfo.createRequestID
        insertExecutionInfo.state insertExecutionInfo.closeStatus startVersion lastWriteVersion
        insertExecutionInfo.domainID insertExecutionInfo.workflowID currExecutionInfo.runID
        request.prevRunVersion request.prevRunState
  let baseCheckStmts : List Stmt :=
    if ¬ request.baseRunID = currExecutionInfo.runID then
      [.checkExecution currExecutionInfo.domainID currExecutionInfo.workflowID
        request.baseRunID request.baseRunNextEventID request.baseRunNextEventID]
    else []
  let currStmts : List Stmt :=
    if request.updateCurr then
      [updateMutableState currExecutionInfo request.currReplicationState
          request.currVersionHistories true request.condition]
        ++ createTimerTasks currExecutionInfo.domainID currExecutionInfo.workflowID
             currExecutionInfo.runID request.currTimerTaskIDs
        ++ createTransferTasks currExecutionInfo.domainID currExecutionInfo.workflowID
             currExecutionInfo.runID request.currTransferTaskIDs
    else
      [.checkExecution currExecutionInfo.domainID currExecutionInfo.workflowID
        currExecutionInfo.runID request.condition request.condition]
  let resetStmt (kind : SubCollectionKind) (count : Nat) : List Stmt :=
    if 0 < count then [.subCollectionOps kind insertExecutionInfo.runID false 0] else []
  [currentStmt]
    ++ baseCheckStmts
    ++ currStmts
    ++ createReplicationTasks insertExecutionInfo.domainID insertExecutionInfo.workflowID
         insertExecutionInfo.runID request.insertReplicationTaskIDs
    ++ createReplicationTasks currExecutionInfo.domainID currExecutionInfo.workflowID
         currExecutionInfo.runID request.currReplicationTaskIDs
    ++ [updateMutableState insertExecutionInfo request.insertReplicationState
          request.insertVersionHistories false 0]
    ++ resetStmt .activityMap request.insertActivityInfoCount
    ++ resetStmt .timerMap request.insertTimerInfoCount
    ++ resetStmt .requestCancelMap request.insertRequestCancelInfoCount
    ++ resetStmt .childExecutionsMap request.insertChildExecutionInfoCount
    ++ resetStmt .signalMap request.insertSignalInfoCount
    ++ resetStmt .signalRequested request.insertSignalRequestedIDCount
    ++ createTimerTasks insertExecutionInfo.domainID insertExecutionInfo.workflowID
         insertExecutionInfo.runID request.insertTimerTaskIDs
    ++ createTransferTasks insertExecutionInfo.domainID insertExecutionInfo.workflowID
         insertExecutionInfo.runID request.insertTransferTaskIDs
    ++ [.updateLease request.rangeID request.rangeID]

/-- `ResetWorkflowExecution` (lines 1978-2168): build the batch, execute,
classify a rejection through `getExecutionConditionalUpdateFailure` with
the current run's id as both the target and the expected current run. -/
def ResetWorkflowExecution (dShardID : Int) (request : ResetWorkflowExecutionRequest)
    (outcome : BatchOutcome) : Option PersistError :=
  match outcome with
  | .failure .timeout => some .timeout
  | .failure .throttling => some .serviceBusy
  | .failure .other => some .internalService
  | .result true _ => none
  | .result false rows =>
    some (getExecutionConditionalUpdateFailure dShardID rows request.currExecutionInfo.runID
      request.condition request.rangeID request.currExecutionInfo.runID)

/-- `p.InternalWorkflowSnapshot`, restricted to the fields used by
`ResetMutableState` (which dereferences the replication state without a nil
check, so it is a plain field here). -/
structure WorkflowSnapshot where
  executionInfo : ExecutionInfoRow
  replicationState : ReplicationStateFields
  versionHistories : Bool
  condition : Int
deriving DecidableEq, Repr

/-- Modelled from the spec: `applyWorkflowSnapshotBatch` is called by
`ResetMutableState` but defined outside this file.  Per the spec (§4.3) it
writes the run's full state and every sub-collection, gated on the
snapshot's `next_event_id` condition. -/
def applyWorkflowSnapshotBatch (snapshot : WorkflowSnapshot) : List Stmt :=
  updateMutableState snapshot.executionInfo (some snapshot.replicationState)
      snapshot.versionHistories true snapshot.condition
    :: [SubCollectionKind.activityMap, .timerMap, .requestCancelMap, .childExecutionsMap,
        .signalMap, .signalRequested].map
        (fun k => Stmt.subCollectionOps k snapshot.executionInfo.runID true snapshot.condition)

structure ResetMutableStateRequest where
  prevRunID : String
  prevLastWriteVersion : Int
  prevState : WorkflowState
  rangeID : Int
  resetWorkflowSnapshot : WorkflowSnapshot
deriving DecidableEq, Repr

/-- The batch built by `ResetMutableState` (lines 2170-2214): the
current-execution-row repoint conditioned on the previous run id, previous
last-write version and previous state; the snapshot write; and the
shard-lease re-check. -/
def ResetMutableStateBatch (dShardID : Int) (request : ResetMutableStateRequest) :
    List Stmt :=
  let executionInfo := request.resetWorkflowSnapshot.executionInfo
  let replicationState := request.resetWorkflowSnapshot.replicationState
  Stmt.updateCurrentExecutionForNew executionInfo.runID executionInfo.createRequestID
      executionInfo.state executionInfo.closeStatus replicationState.startVersion
      replicationState.lastWriteVersion executionInfo.domainID executionInfo.workflowID
      request.prevRunID request.prevLastWriteVersion request.prevState
    :: (applyWorkflowSnapshotBatch request.resetWorkflowSnapshot
        ++ [.updateLease request.rangeID request.rangeID])

/-- `ResetMutableState` (lines 2170-2244): build the batch, execute,
classify a rejection through `getExecutionConditionalUpdateFailure` with
`request.PrevRunID` as the expected current run. -/
def ResetMutableState (dShardID : Int) (request : ResetMutableStateRequest)
    (outcome : BatchOutcome) : Option PersistError :=
  let executionInfo := request.resetWorkflowSnapshot.executionInfo
  match outcome with
  | .failure .timeout => some .timeout
  | .failure .throttling => some .serviceBusy
  | .failure .other => some .internalService
  | .result true _ => none
  | .result false rows =>
    some (getExecutionConditionalUpdateFailure dShardID rows executionInfo.runID
      request.resetWorkflowSnapshot.condition request.rangeID request.prevRunID)

/-! ### Task list store -/

/-- The task-list row: its `range_id` column plus the `ack_level` and
`kind` fields of its `task_list` column. -/
structure TaskListRow where
  rangeID : Int
  ackLevel : Int
  kind : Int
deriving DecidableEq, Repr

structure LeaseTaskListRequest where
  domainID : String
  taskList : String
  taskType : Int
  taskListKind : Int
  rangeID : Int
deriving DecidableEq, Repr

/-- Outcome of the initial `templateGetTaskList` point read. -/
inductive TaskListReadOutcome
  | found (row : TaskListRow)
  | notFound
  | failure (e : StoreErrorKind)
deriving DecidableEq, Repr

/-- The conditional write `LeaseTaskList` submits: either
`templateInsertTaskListQuery` (`IF NOT EXISTS`) or
`templateUpdateTaskListQuery` (`IF range_id = condRangeID`). -/
inductive TaskListWrite
  | insert (rangeID ackLevel kind : Int)
  | update (newRangeID ackLevel kind : Int) (condRangeID : Int)
deriving DecidableEq, Repr

/-- The response essentials of `p.TaskListInfo`: the returned range token,
ack level and kind. -/
structure TaskListInfo where
  rangeID : Int
  ackLevel : Int
  kind : Int
deriving DecidableEq, Repr

structure LeaseTaskListOutput where
  newState : Option TaskListRow
  attemptedWrite : Option TaskListWrite
  result : Except PersistError TaskListInfo
deriving Repr

/-- `LeaseTaskList` (lines 2642-2743).  `readOutcome` is the result of the
initial point read; `casRow` is the task-list row at the time the
conditional write executes (letting a concurrent change between read and
write be expressed); `casErr` is a session error of the conditional write.
An empty list name is rejected up front; a missing row leads to an
`IF NOT EXISTS` insert of the initial range id (the local `rangeID` stays
0, so the response token is `0 + 1`); an existing row with a caller token
`> 0` that mismatches fails `ConditionFailed` without any write; otherwise
the stored token is incremented by one under `IF range_id = stored`, and
the response carries the old stored token plus one, the stored ack level,
and the kind from the request. -/
def LeaseTaskList (request : LeaseTaskListRequest) (readOutcome : TaskListReadOutcome)
    (casRow : Option TaskListRow) (casErr : Option StoreErrorKind) : LeaseTaskListOutput :=
  if request.taskList = "" then
    { newState := casRow, attemptedWrite := none, result := .error .internalService }
  else
    match readOutcome with
    | .failure .throttling =>
      { newState := casRow, attemptedWrite := none, result := .error .serviceBusy }
    | .failure _ =>
      { newState := casRow, attemptedWrite := none, result := .error .internalService }
    | .notFound =>
      let write := TaskListWrite.insert initialRangeID 0 request.taskListKind
      match casErr with
      | some .throttling =>
        { newState := casRow, attemptedWrite := some write, result := .error .serviceBusy }
      | some _ =>
        { newState := casRow, attemptedWrite := some write, result := .error .internalService }
      | none =>
        match casRow with
        | none =>
          { newState := some { rangeID := initialRangeID, ackLevel := 0,
                               kind := request.taskListKind },
            attemptedWrite := some write,
            result := .ok { rangeID := 0 + 1, ackLevel := 0, kind := request.taskListKind } }
        | some current =>
          { newState := some current, attemptedWrite := some write,
            result := .error .conditionFailed }
    | .found row =>
      if request.rangeID > 0 ∧ ¬ request.rangeID = row.rangeID then
        { newState := casRow, attemptedWrite := none, result := .error .conditionFailed }
      else
        let write := TaskListWrite.update (row.rangeID + 1) row.ackLevel row.kind row.rangeID
        match casErr with
        | some .throttling =>
          { newState := casRow, attemptedWrite := some write, result := .error .serviceBusy }
        | some _ =>
          { newState := casRow, attemptedWrite := some write, result := .error .internalService }
        | none =>
          match casRow with
          | some current =>
            if current.rangeID = row.rangeID then
              { newState := some { rangeID := row.rangeID + 1, ackLevel := row.ackLevel,
                                   kind := row.kind },
                attemptedWrite := some write,
                result := .ok { rangeID := row.rangeID + 1, ackLevel := row.ackLevel,
                                kind := request.taskListKind } }
            else
              { newState := some current, attemptedWrite := some write,
                result := .error .conditionFailed }
          | none =>
            { newState := none, attemptedWrite := some write,
              result := .error .conditionFailed }

/-! ### GetTasks / CompleteTasksLessThan -/

/-- One row yielded by the `templateGetTasksQuery` iterator; `taskID` is
`none` for a static-column-only record, which the loop skips. -/
structure TaskRowRecord where
  taskID : Option Int
deriving DecidableEq, Repr

structure GetTasksRequest where
  domainID : String
  taskList : String
  taskType : Int
  readLevel : Int
  maxReadLevel : Option Int
  batchSize : Int
deriving DecidableEq, Repr

structure GetTasksOutput where
  queried : Bool
  result : Except PersistError (List Int)
deriving Repr

/-- The `PopulateTasks` loop of `GetTasks` (lines 2966-2979): skip rows
without a `task_id`, append the rest, and break as soon as the collected
count equals `request.BatchSize`. -/
def getTasksLoop (batchSize : Int) : List TaskRowRecord → List Int → List Int
  | [], acc => acc
  | row :: rest, acc =>
    match row.taskID with
    | none => getTasksLoop batchSize rest acc
    | some taskID =>
      let acc2 := acc ++ [taskID]
      if (acc2.length : Int) = batchSize then acc2 else getTasksLoop batchSize rest acc2

/-- `GetTasks` (lines 2937-2988).  A nil `MaxReadLevel` is an
`InternalServiceError`; a `ReadLevel` above `MaxReadLevel` returns an empty
response without touching the store (`queried = false`); otherwise the
iterator rows are folded by `getTasksLoop`, and an error on closing the
iterator is an `InternalServiceError`. -/
def GetTasks (request : GetTasksRequest) (rows : List TaskRowRecord)
    (closeErr : Option StoreErrorKind) : GetTasksOutput :=
  match request.maxReadLevel with
  | none => { queried := false, result := .error .internalService }
  | some maxReadLevel =>
    if request.readLevel > maxReadLevel then { queried := false, result := .ok [] }
    else
      match closeErr with
      | some _ => { queried := true, result := .error .internalService }
      | none => { queried := true, result := .ok (getTasksLoop request.batchSize rows []) }

structure CompleteTasksLessThanRequest where
  domainID : String
  taskListName : String
  taskType : Int
  taskID : Int
deriving DecidableEq, Repr

/-- `CompleteTasksLessThan` (lines 3018-3033): an unconditional
delete-by-upper-bound; on success the returned affected-row count is the
`UnknownNumRowsAffected` sentinel, on failure the count 0 plus a
`ServiceBusyError` (throttling) or `InternalServiceError` (anything
else). -/
def CompleteTasksLessThan (request : CompleteTasksLessThanRequest)
    (execErr : Option StoreErrorKind) : Int × Option PersistError :=
  match execErr with
  | some .throttling => (0, some .serviceBusy)
  | some _ => (0, some .internalService)
  | none => (unknownNumRowsAffected, none)

/-! ### Concrete sample inputs used by the closed checks below -/

/-- A returned shard row carrying `range_id = v`. -/
def rowShardWithRange (v : Int) : ReturnedRow :=
  { rowType := some rowTypeShard, runID := "30000000-1000-f000-f000-000000000000",
    rangeID := some v, nextEventID := none, currentRunID := "", execution := none,
    lastWriteVersion := 0 }

/-- A returned current-execution marker row carrying `current_run_id = cur`
and no `execution` column. -/
def rowCurrentMarker (cur : String) : ReturnedRow :=
  { rowType := some rowTypeExecution, runID := permanentRunID, rangeID := none,
    nextEventID := none, currentRunID := cur, execution := none, lastWriteVersion := 0 }

/-- A returned execution row of run `rid` carrying `next_event_id = nid`. -/
def rowTargetRun (rid : String) (nid : Int) : ReturnedRow :=
  { rowType := some rowTypeExecution, runID := rid, rangeID := none,
    nextEventID := some nid, currentRunID := "", execution := none, lastWriteVersion := 0 }

def sampleCreateRequest (mode : CreateWorkflowMode) (state : WorkflowState)
    (closeStatus : Int) : CreateWorkflowExecutionRequest :=
  { domainID := "d1", workflowID := "wf1", runID := "run1", requestID := "creq1",
    createWorkflowMode := mode, state := state, closeStatus := closeStatus,
    previousRunID := "run0", previousLastWriteVersion := 3,
    replicationState := none, versionHistories := false,
    nextEventID := 5, rangeID := 10,
    transferTaskIDs := [100], replicationTaskIDs := [], timerTaskIDs := [200] }

def sampleExecutionInfo : ExecutionInfoRow :=
  { domainID := "d1", workflowID := "wf1", runID := "run1", createRequestID := "creq1",
    state := .running, closeStatus := 0, nextEventID := 7 }

def sampleMutation : WorkflowMutation :=
  { executionInfo := sampleExecutionInfo, replicationState := none,
    versionHistories := false, condition := 7, subCollectionsTouched := [] }

def sampleUpdateRequest : UpdateWorkflowExecutionRequest :=
  { rangeID := 10, updateWorkflowMutation := sampleMutation, continueAsNew := none }

def sampleResetRequest : ResetWorkflowExecutionRequest :=
  { rangeID := 10, prevRunVersion := 2, prevRunState := .completed,
    baseRunID := "run-base", baseRunNextEventID := 4, condition := 9, updateCurr := true,
    currExecutionInfo := sampleExecutionInfo, currReplicationState := none,
    currVersionHistories := false, currTransferTaskIDs := [], currTimerTaskIDs := [],
    currReplicationTaskIDs := [],
    insertExecutionInfo := { sampleExecutionInfo with runID := "run-new" },
    insertReplicationState := none, insertVersionHistories := false,
    insertTransferTaskIDs := [], insertTimerTaskIDs := [], insertReplicationTaskIDs := [],
    insertActivityInfoCount := 0, insertTimerInfoCount := 0,
    insertRequestCancelInfoCount := 0, insertChildExecutionInfoCount := 0,
    insertSignalInfoCount := 0, insertSignalRequestedIDCount := 0 }

def sampleLeaseRequest : LeaseTaskListRequest :=
  { domainID := "d1", taskList := "tl1", taskType := 0, taskListKind := 0, rangeID := 0 }

/-! ## Classifier characterisation -/

lemma classifyScan_spec (reqRunID : String) (reqCondition reqRangeID : Int)
    (reqCondRunID : String) (rows : List ReturnedRow) (s : ClassifyState)
    (h : ∀ r ∈ rows, r.rowType.isSome) :
    (classifyScan reqRunID reqCondition reqRangeID reqCondRunID s rows).rangeIDUnmatch
        = (s.rangeIDUnmatch || rows.any (shardMismatchB reqRangeID)) ∧
    (classifyScan reqRunID reqCondition reqRangeID reqCondRunID s rows).runIDUnmatch
        = (s.runIDUnmatch || rows.any (currMismatchB reqRunID reqCondRunID)) ∧
    (classifyScan reqRunID reqCondition reqRangeID reqCondRunID s rows).nextEventIDUnmatch
        = (s.nextEventIDUnmatch || rows.any (nextEventMismatchB reqRunID reqCondition)) ∧
    (classifyScan reqRunID reqCondition reqRangeID reqCondRunID s rows).allPrevious
        = s.allPrevious ++ rows := by
  induction rows generalizing s with
  | nil => simp [classifyScan]
  | cons row rest ih =>
    have hhead : row.rowType.isSome := h row (List.mem_cons_self row rest)
    have hrest : ∀ r ∈ rest, r.rowType.isSome := fun r hr => h r (List.mem_cons_of_mem row hr)
    obtain ⟨t, ht⟩ := Option.isSome_iff_exists.mp hhead
    by_cases h1 : t = rowTypeShard
    · have hcurr : currMismatchB reqRunID reqCondRunID row = false := by
        simp only [currMismatchB, ht]
        rw [if_neg]
        intro hc
        have he := Option.some_injective _ hc.1
        exact absurd (he.symm.trans h1) (by decide)
      have hnext : nextEventMismatchB reqRunID reqCondition row = false := by
        simp only [nextEventMismatchB, ht]
        rw [if_neg]
        intro hc
        have he := Option.some_injective _ hc.1
        exact absurd (he.symm.trans h1) (by decide)
      cases hr : row.rangeID with
      | some v =>
        have hmis : shardMismatchB reqRangeID row = decide (v ≠ reqRangeID) := by
          simp only [shardMismatchB, ht, hr]
          rw [if_pos (by rw [h1])]
        simp only [classifyScan, ht]
        rw [if_pos h1]
        simp only [hr]
        obtain ⟨e1, e2, e3, e4⟩ := ih _ hrest
        refine ⟨?_, ?_, ?_, ?_⟩
        · rw [e1]; simp [hmis, Bool.or_assoc]
        · rw [e2]; simp [hcurr]
        · rw [e3]; simp [hnext]
        · rw [e4]; simp
      | none =>
        have hmis : shardMismatchB reqRangeID row = false := by
          simp only [shardMismatchB, ht, hr]
          rw [if_pos (by rw [h1])]
        simp only [classifyScan, ht]
        rw [if_pos h1]
        simp only [hr]
        obtain ⟨e1, e2, e3, e4⟩ := ih _ hrest
        refine ⟨?_, ?_, ?_, ?_⟩
        · rw [e1]; simp [hmis]
        · rw [e2]; simp [hcurr]
        · rw [e3]; simp [hnext]
        · rw [e4]; simp
    · have hmis : shardMismatchB reqRangeID row = false := by
        simp only [shardMismatchB, ht]
        rw [if_neg]
        intro hc
        exact h1 (Option.some_injective _ hc)
      by_cases h2 : t = rowTypeExecution ∧ row.runID = reqRunID
      · have hcurr : currMismatchB reqRunID reqCondRunID row = false := by
          simp only [currMismatchB, ht]
          rw [if_neg]
          intro hc
          exact hc.2.1 h2.2
        cases hn : row.nextEventID with
        | some v =>
          have hnext : nextEventMismatchB reqRunID reqCondition row
              = decide (v ≠ reqCondition) := by
            simp only [nextEventMismatchB, ht, hn]
            rw [if_pos ⟨by rw [h2.1], h2.2⟩]
          simp only [classifyScan, ht]
          rw [if_neg h1, if_pos h2]
          simp only [hn]
          obtain ⟨e1, e2, e3, e4⟩ := ih _ hrest
          refine ⟨?_, ?_, ?_, ?_⟩
          · rw [e1]; simp [hmis]
          · rw [e2]; simp [hcurr]
          · rw [e3]; simp [hnext, Bool.or_assoc]
          · rw [e4]; simp
        | none =>
          have hnext : nextEventMismatchB reqRunID reqCondition row = false := by
            simp only [nextEventMismatchB, ht, hn]
            rw [if_pos ⟨by rw [h2.1], h2.2⟩]
          simp only [classifyScan, ht]
          rw [if_neg h1, if_pos h2]
          simp only [hn]
          obtain ⟨e1, e2, e3, e4⟩ := ih _ hrest
          refine ⟨?_, ?_, ?_, ?_⟩
          · rw [e1]; simp [hmis]
          · rw [e2]; simp [hcurr]
          · rw [e3]; simp [hnext]
          · rw [e4]; simp
      · have hnext : nextEventMismatchB reqRunID reqCondition row = false := by
          simp only [nextEventMismatchB, ht]
          rw [if_neg]
          intro hc
          exact h2 ⟨Option.some_injective _ hc.1, hc.2⟩
        by_cases h3 : t = rowTypeExecution ∧ row.runID = permanentRunID
        · have hcurr : currMismatchB reqRunID reqCondRunID row
              = decide (row.currentRunID ≠ reqCondRunID) := by
            have hne : ¬ row.runID = reqRunID := fun hc => h2 ⟨h3.1, hc⟩
            simp only [currMismatchB, ht]
            rw [if_pos ⟨by rw [h3.1], hne, h3.2⟩]
          simp only [classifyScan, ht]
          rw [if_neg h1, if_neg h2, if_pos h3]
          obtain ⟨e1, e2, e3, e4⟩ := ih _ hrest
          refine ⟨?_, ?_, ?_, ?_⟩
          · rw [e1]; simp [hmis]
          · rw [e2]; simp [hcurr, Bool.or_assoc]
          · rw [e3]; simp [hnext]
          · rw [e4]; simp
        · have hcurr : currMismatchB reqRunID reqCondRunID row = false := by
            simp only [currMismatchB, ht]
            rw [if_neg]
            intro hc
            exact h3 ⟨Option.some_injective _ hc.1, hc.2.2⟩
          simp only [classifyScan, ht]
          rw [if_neg h1, if_neg h2, if_neg h3]
          obtain ⟨e1, e2, e3, e4⟩ := ih _ hrest
          refine ⟨?_, ?_, ?_, ?_⟩
          · rw [e1]; simp [hmis]
          · rw [e2]; simp [hcurr]
          · rw [e3]; simp [hnext]
          · rw [e4]; simp

/-- The classifier of the update/reset paths, characterised: under the
store contract that every returned row carries its `type` column, the
error is chosen by scanning all rows with shard-token mismatch first, then
current-run mismatch, then next-event-id mismatch, then the catch-all
carrying every returned row. -/
lemma getExecutionConditionalUpdateFailure_spec (dShardID : Int) (rows : List ReturnedRow)
    (reqRunID : String) (reqCondition reqRangeID : Int) (reqCondRunID : String)
    (h : ∀ r ∈ rows, r.rowType.isSome) :
    getExecutionConditionalUpdateFailure dShardID rows reqRunID reqCondition reqRangeID
        reqCondRunID
      = if rows.any (shardMismatchB reqRangeID) then .shardOwnershipLost dShardID
        else if rows.any (currMismatchB reqRunID reqCondRunID) then
          .currentWorkflowConditionFailed
        else if rows.any (nextEventMismatchB reqRunID reqCondition) then .conditionFailed
        else .conditionFailedAllColumns rows := by
  obtain ⟨e1, e2, e3, e4⟩ := classifyScan_spec reqRunID reqCondition reqRangeID reqCondRunID
    rows classifyInit h
  unfold getExecutionConditionalUpdateFailure
  simp only [e1, e2, e3, e4]
  simp [classifyInit]

/-! ## Claim C1 -/

/-- C1, counterexample.  The claim asserts the priority classification (a
shard row with a differing `range_id` wins) and the full scan of every
returned row "for both the create path and the update/reset paths".  On
the create path this fails: with the current-execution marker row returned
first (its `current_run_id` differing from the caller's run) and a shard
row with a differing `range_id` returned second, `CreateWorkflowExecution`
returns `CurrentWorkflowConditionFailed` — it decides at the first marker
row without scanning the remaining rows, so the shard mismatch never
yields `ShardOwnershipLost`. -/
theorem C1_counterexample :
    createFailureReasonLoop 7 1 "run1" false
        [rowCurrentMarker "run-other", rowShardWithRange 2]
      = .currentWorkflowConditionFailed ∧
    List.any [rowCurrentMarker "run-other", rowShardWithRange 2] (shardMismatchB 1)
      = true ∧
    (createFailureReasonLoop 7 1 "run1" false
        [rowCurrentMarker "run-other", rowShardWithRange 2]).isShardOwnershipLost
      = false := by
  refine ⟨?_, by decide, ?_⟩ <;> decide

/-- C1, amended: the conditional-failure classifier of the update/reset
paths (`getExecutionConditionalUpdateFailure`) scans every returned row
(provided each carries its `type` column) and classifies in priority
order: a shard row with a differing `range_id` gives `ShardOwnershipLost`;
otherwise a current-execution marker row whose `current_run_id` differs
from the expected run gives `CurrentWorkflowConditionFailed`; otherwise
the target run's row with a differing `next_event_id` gives
`ConditionFailed`; otherwise the catch-all `ConditionFailed` carrying all
returned columns.  (The create path classifies inline and differently —
see the counterexample.) -/
theorem C1_update_reset_classifier_priority (dShardID : Int) (rows : List ReturnedRow)
    (reqRunID : String) (reqCondition reqRangeID : Int) (reqCondRunID : String)
    (h : ∀ r ∈ rows, r.rowType.isSome) :
    getExecutionConditionalUpdateFailure dShardID rows reqRunID reqCondition reqRangeID
        reqCondRunID
      = if rows.any (shardMismatchB reqRangeID) then .shardOwnershipLost dShardID
        else if rows.any (currMismatchB reqRunID reqCondRunID) then
          .currentWorkflowConditionFailed
        else if rows.any (nextEventMismatchB reqRunID reqCondition) then .conditionFailed
        else .conditionFailedAllColumns rows :=
  getExecutionConditionalUpdateFailure_spec dShardID rows reqRunID reqCondition reqRangeID
    reqCondRunID h

/-- C1, witness: the amended classifier theorem applied to a concrete row
list in which the marker row precedes a mismatching shard row — the shard
mismatch still wins. -/
theorem C1_witness :
    getExecutionConditionalUpdateFailure 7
        [rowCurrentMarker "run-other", rowShardWithRange 2] "run1" 5 1 "run1"
      = .shardOwnershipLost 7 := by
  rw [C1_update_reset_classifier_priority 7
    [rowCurrentMarker "run-other", rowShardWithRange 2] "run1" 5 1 "run1" (by decide)]
  decide

/-! ## Claim C2 -/

/-- C2, counterexample.  The claim asserts `ShardOwnershipLost` is returned
"if and only if" the shard row's stored range token differs from the
caller's.  On the create path the reverse direction fails: when the
returned rows consist of the shard row with a MATCHING token (and nothing
else explains the rejection), `CreateWorkflowExecution` still returns
`ShardOwnershipLost` as its defensive fallback ("much safer ... to force
the application to reload shard"). -/
theorem C2_counterexample :
    createFailureReasonLoop 7 1 "run1" false [rowShardWithRange 1]
      = .shardOwnershipLost 7 ∧
    List.any [rowShardWithRange 1] (shardMismatchB 1) = false := by
  exact ⟨by decide, by decide⟩

/-- C2, amended: (1) for `UpdateShard`, when the shard row exists and the
session call succeeds, `ShardOwnershipLost` is returned iff the stored
range token differs from `request.PreviousRangeID`; (2) for the
update/reset execution batches, the shared classifier returns
`ShardOwnershipLost` iff some returned shard row carries a differing
`range_id` (each returned row carrying its `type` column); (3) on the
create path the forward direction holds when the shard row is the first
row returned: a differing token yields `ShardOwnershipLost` — but not the
reverse direction (see the counterexample). -/
theorem C2_shardOwnershipLost_iff :
    (∀ (dShardID : Int) (stored : Option ShardInfoRecord) (shard : ShardInfoRecord)
        (request : UpdateShardRequest), stored = some shard →
      ((UpdateShard dShardID stored request none).2 = some (.shardOwnershipLost dShardID)
        ↔ ¬ shard.rangeID = request.previousRangeID)) ∧
    (∀ (dShardID : Int) (rows : List ReturnedRow) (reqRunID : String)
        (reqCondition reqRangeID : Int) (reqCondRunID : String),
      (∀ r ∈ rows, r.rowType.isSome) →
      ((getExecutionConditionalUpdateFailure dShardID rows reqRunID reqCondition reqRangeID
          reqCondRunID).isShardOwnershipLost = true
        ↔ rows.any (shardMismatchB reqRangeID) = true)) ∧
    (∀ (dShardID reqRangeID : Int) (reqRunID : String) (hasReplicationState : Bool)
        (row : ReturnedRow) (rest : List ReturnedRow) (v : Int),
      row.rowType = some rowTypeShard → row.rangeID = some v → ¬ v = reqRangeID →
      createFailureReasonLoop dShardID reqRangeID reqRunID hasReplicationState (row :: rest)
        = .shardOwnershipLost dShardID) := by
  refine ⟨?_, ?_, ?_⟩
  · intro dShardID stored shard request hstored
    subst hstored
    unfold UpdateShard
    by_cases hr : shard.rangeID = request.previousRangeID
    · simp [hr]
    · simp [hr]
  · intro dShardID rows reqRunID reqCondition reqRangeID reqCondRunID h
    rw [getExecutionConditionalUpdateFailure_spec dShardID rows reqRunID reqCondition
      reqRangeID reqCondRunID h]
    by_cases h1 : rows.any (shardMismatchB reqRangeID) = true
    · simp [h1, PersistError.isShardOwnershipLost]
    · by_cases h2 : rows.any (currMismatchB reqRunID reqCondRunID) = true
      · simp [h1, h2, PersistError.isShardOwnershipLost]
      · by_cases h3 : rows.any (nextEventMismatchB reqRunID reqCondition) = true
        · simp [h1, h2, h3, PersistError.isShardOwnershipLost]
        · simp [h1, h2, h3, PersistError.isShardOwnershipLost]
  · intro dShardID reqRangeID reqRunID hasReplicationState row rest v ht hr hv
    unfold createFailureReasonLoop
    rw [ht]
    simp only [hr]
    simp [hv]

/-- C2, witness: the three amended clauses at concrete inputs — a stored
shard row with token 3 against a presented token 4 (mismatch) and against
3 (match); the classifier on a mismatching shard row; and the create path
on a leading mismatching shard row. -/
theorem C2_witness :
    ((UpdateShard 7 (some { shardID := 7, owner := "h1", rangeID := 3 })
        { shardInfo := { shardID := 7, owner := "h2", rangeID := 4 },
          previousRangeID := 4 } none).2 = some (.shardOwnershipLost 7)
      ↔ ¬ (3 : Int) = 4) ∧
    ((getExecutionConditionalUpdateFailure 7 [rowShardWithRange 2] "run1" 5 1
        "run1").isShardOwnershipLost = true
      ↔ List.any [rowShardWithRange 2] (shardMismatchB 1) = true) ∧
    createFailureReasonLoop 7 1 "run1" false [rowShardWithRange 2, rowCurrentMarker "x"]
      = .shardOwnershipLost 7 := by
  refine ⟨?_, ?_, ?_⟩
  · exact C2_shardOwnershipLost_iff.1 7 (some { shardID := 7, owner := "h1", rangeID := 3 })
      { shardID := 7, owner := "h1", rangeID := 3 }
      { shardInfo := { shardID := 7, owner := "h2", rangeID := 4 }, previousRangeID := 4 }
      rfl
  · exact C2_shardOwnershipLost_iff.2.1 7 [rowShardWithRange 2] "run1" 5 1 "run1" (by decide)
  · exact C2_shardOwnershipLost_iff.2.2 7 1 "run1" false (rowShardWithRange 2)
      [rowCurrentMarker "x"] 2 (by decide) (by decide) (by decide)

/-! ## Claim C3 -/

/-- C3: whenever the backing store reports a timeout on the submitted batch
(i.e. the batch was actually built and submitted), `CreateWorkflowExecution`,
`UpdateWorkflowExecution` and `ResetWorkflowExecution` each return the
dedicated ambiguous-outcome `TimeoutError`, which is distinct from success,
from `InternalServiceError` and from `ServiceBusyError`. -/
theorem C3_timeout_is_ambiguous_outcome :
    (∀ (dShardID : Int) (request : CreateWorkflowExecutionRequest)
        (currentRow : Option CurrentExecutionRow),
      (CreateWorkflowExecutionBatch dShardID request).isOk = true →
      (request.createWorkflowMode = .zombie →
        assertNotCurrentExecution currentRow request.runID = none) →
      CreateWorkflowExecution dShardID request currentRow (.failure .timeout)
        = some .timeout) ∧
    (∀ (dShardID : Int) (request : UpdateWorkflowExecutionRequest)
        (currentRow : Option CurrentExecutionRow),
      (UpdateWorkflowExecutionBatch dShardID request currentRow).isOk = true →
      UpdateWorkflowExecution dShardID request currentRow (.failure .timeout)
        = some .timeout) ∧
    (∀ (dShardID : Int) (request : ResetWorkflowExecutionRequest),
      ResetWorkflowExecution dShardID request (.failure .timeout) = some .timeout) ∧
    some (PersistError.timeout) ≠ (none : Option PersistError) ∧
    PersistError.timeout ≠ PersistError.internalService ∧
    PersistError.timeout ≠ PersistError.serviceBusy := by
  refine ⟨?_, ?_, ?_, by decide, by decide, by decide⟩
  · intro dShardID request currentRow hok hassert
    cases hbatch : CreateWorkflowExecutionBatch dShardID request with
    | error e => rw [hbatch] at hok; simp [Except.isOk, Except.toBool] at hok
    | ok stmts =>
      by_cases hm : request.createWorkflowMode = .zombie
      · simp [CreateWorkflowExecution, hm, hassert hm, hbatch]
      · simp [CreateWorkflowExecution, hm, hbatch]
  · intro dShardID request currentRow hok
    cases hbatch : UpdateWorkflowExecutionBatch dShardID request currentRow with
    | error e => rw [hbatch] at hok; simp [Except.isOk, Except.toBool] at hok
    | ok stmts => simp [UpdateWorkflowExecution, hbatch]
  · intro dShardID request
    simp [ResetWorkflowExecution]

/-- C3, witness: the theorem applied at concrete create / update / reset
requests whose batches build successfully. -/
theorem C3_witness :
    CreateWorkflowExecution 1 (sampleCreateRequest .brandNew .created 0) none
        (.failure .timeout) = some .timeout ∧
    UpdateWorkflowExecution 1 sampleUpdateRequest none (.failure .timeout)
      = some .timeout ∧
    ResetWorkflowExecution 1 sampleResetRequest (.failure .timeout) = some .timeout :=
  ⟨C3_timeout_is_ambiguous_outcome.1 1 (sampleCreateRequest .brandNew .created 0) none
      (by decide) (by decide),
   C3_timeout_is_ambiguous_outcome.2.1 1 sampleUpdateRequest none (by decide),
   C3_timeout_is_ambiguous_outcome.2.2.1 1 sampleResetRequest⟩

/-! ## Claim C4 -/

lemma assertNotCurrentExecution_cases (currentRow : Option CurrentExecutionRow)
    (runID : String) :
    assertNotCurrentExecution currentRow runID = none ∨
    assertNotCurrentExecution currentRow runID = some .internalService := by
  cases currentRow with
  | none => exact Or.inl rfl
  | some row =>
    have hdef : assertNotCurrentExecution (some row) runID
        = if row.currentRunID = runID then some .internalService else none := rfl
    by_cases hc : row.currentRunID = runID
    · exact Or.inr (by rw [hdef, if_pos hc])
    · exact Or.inl (by rw [hdef, if_neg hc])

lemma CreateWorkflowExecutionWithinBatch_zombie_stmts (dShardID : Int)
    (request : CreateWorkflowExecutionRequest)
    (hm : request.createWorkflowMode = .zombie) (r : WithinBatchResult)
    (hok : CreateWorkflowExecutionWithinBatch dShardID request = .ok r) :
    ∀ s ∈ r.stmts, s.touchesCurrentRow = false := by
  unfold CreateWorkflowExecutionWithinBatch at hok
  cases hval : ValidateCreateWorkflowStateCloseStatus request.state request.closeStatus with
  | some e => rw [hval] at hok; simp at hok
  | none =>
    rw [hval] at hok
    dsimp only [] at hok
    have hmode : ¬ (request.replicationState = none ∧
        request.createWorkflowMode = CreateWorkflowMode.workflowIDReuse) := by
      rintro ⟨-, h⟩; rw [hm] at h; cases h
    rw [if_neg hmode, hm] at hok
    dsimp only [] at hok
    by_cases hz : ¬ request.state = .zombie ∨
        ¬ request.closeStatus = workflowCloseStatusNone
    · rw [if_pos hz] at hok; simp at hok
    · rw [if_neg hz] at hok
      simp only [Except.ok.injEq] at hok
      subst hok
      intro s hs
      simp only [List.mem_singleton] at hs
      subst hs
      rfl

lemma CreateWorkflowExecutionBatch_zombie_error (dShardID : Int)
    (request : CreateWorkflowExecutionRequest)
    (hm : request.createWorkflowMode = .zombie)
    (hnz : ¬ (request.state = .zombie ∧ request.closeStatus = workflowCloseStatusNone)) :
    CreateWorkflowExecutionBatch dShardID request = .error .internalService := by
  unfold CreateWorkflowExecutionBatch CreateWorkflowExecutionWithinBatch
  by_cases hval : request.closeStatus = workflowCloseStatusNone ∧
      (request.state = .created ∨ request.state = .running ∨ request.state = .zombie)
  · have hvn : ValidateCreateWorkflowStateCloseStatus request.state request.closeStatus
        = none := by simp [ValidateCreateWorkflowStateCloseStatus, hval]
    rw [hvn]
    have hsz : ¬ request.state = .zombie := fun h => hnz ⟨h, hval.1⟩
    have hmode : ¬ (request.replicationState = none ∧
        request.createWorkflowMode = CreateWorkflowMode.workflowIDReuse) := by
      rintro ⟨-, h⟩; rw [hm] at h; cases h
    rw [if_neg hmode]
    simp only [hm]
    rw [if_pos (Or.inl hsz)]
  · have hvn : ValidateCreateWorkflowStateCloseStatus request.state request.closeStatus
        = some .internalService := by
      simp only [ValidateCreateWorkflowStateCloseStatus]
      rw [if_neg hval]
    rw [hvn]

/-- C4: for every `Zombie`-mode `CreateWorkflowExecution`, (1) if the
current-execution pointer names the run being created, the call fails with
an `InternalServiceError` (the up-front `assertNotCurrentExecution`); (2)
unless the requested state is Zombie with close status None, the call
fails with an `InternalServiceError`, whatever the store outcome; and (3)
whenever the batch is successfully built, it contains no statement that
inserts or updates the current-execution pointer row. -/
theorem C4_zombie_create :
    (∀ (dShardID : Int) (request : CreateWorkflowExecutionRequest)
        (c : CurrentExecutionRow) (outcome : BatchOutcome),
      request.createWorkflowMode = .zombie → c.currentRunID = request.runID →
      CreateWorkflowExecution dShardID request (some c) outcome
        = some .internalService) ∧
    (∀ (dShardID : Int) (request : CreateWorkflowExecutionRequest)
        (currentRow : Option CurrentExecutionRow) (outcome : BatchOutcome),
      request.createWorkflowMode = .zombie →
      ¬ (request.state = .zombie ∧ request.closeStatus = workflowCloseStatusNone) →
      CreateWorkflowExecution dShardID request currentRow outcome
        = some .internalService) ∧
    (∀ (dShardID : Int) (request : CreateWorkflowExecutionRequest) (stmts : List Stmt),
      request.createWorkflowMode = .zombie →
      CreateWorkflowExecutionBatch dShardID request = .ok stmts →
      stmts.all (fun s => ! s.touchesCurrentRow) = true) := by
  refine ⟨?_, ?_, ?_⟩
  · intro dShardID request c outcome hm hc
    simp [CreateWorkflowExecution, hm, assertNotCurrentExecution, hc]
  · intro dShardID request currentRow outcome hm hnz
    have hbatch := CreateWorkflowExecutionBatch_zombie_error dShardID request hm hnz
    rcases assertNotCurrentExecution_cases currentRow request.runID with ha | ha
    · simp [CreateWorkflowExecution, hm, ha, hbatch]
    · simp [CreateWorkflowExecution, hm, ha]
  · intro dShardID request stmts hm hok
    unfold CreateWorkflowExecutionBatch at hok
    cases hwb : CreateWorkflowExecutionWithinBatch dShardID request with
    | error e => rw [hwb] at hok; simp at hok
    | ok r =>
      rw [hwb] at hok
      simp only [Except.ok.injEq] at hok
      subst hok
      have hr := CreateWorkflowExecutionWithinBatch_zombie_stmts dShardID request hm r hwb
      rw [List.all_eq_true]
      intro s hs
      simp only [createTransferTasks, createReplicationTasks, createTimerTasks,
        List.mem_append, List.mem_singleton, List.mem_map] at hs
      rcases hs with ((((hs | hs) | hs) | hs) | hs)
      · rw [hr s hs]; rfl
      · obtain ⟨a, -, rfl⟩ := hs; rfl
      · obtain ⟨a, -, rfl⟩ := hs; rfl
      · obtain ⟨a, -, rfl⟩ := hs; rfl
      · subst hs; rfl

/-- C4, witness: the three clauses at a concrete zombie-mode request — the
assert rejecting a run already named current, the state/close-status guard
rejecting a Running zombie request, and the built batch of a well-formed
zombie request containing no current-row statement. -/
theorem C4_witness :
    CreateWorkflowExecution 1 (sampleCreateRequest .zombie .zombie 0)
        (some { currentRunID := "run1" }) (.result true []) = some .internalService ∧
    CreateWorkflowExecution 1 (sampleCreateRequest .zombie .running 0) none
        (.result true []) = some .internalService ∧
    List.all
        [Stmt.insertExecution "d1" "wf1" "run1" 5 .plain,
         Stmt.insertTransferTask "d1" "wf1" "run1" 100,
         Stmt.insertTimerTask "d1" "wf1" "run1" 200,
         Stmt.updateLease 10 10] (fun s => ! s.touchesCurrentRow) = true := by
  refine ⟨?_, ?_, ?_⟩
  · exact C4_zombie_create.1 1 (sampleCreateRequest .zombie .zombie 0)
      { currentRunID := "run1" } (.result true []) rfl rfl
  · exact C4_zombie_create.2.1 1 (sampleCreateRequest .zombie .running 0) none
      (.result true []) rfl (by decide)
  · exact C4_zombie_create.2.2 1 (sampleCreateRequest .zombie .zombie 0)
      [Stmt.insertExecution "d1" "wf1" "run1" 5 .plain,
       Stmt.insertTransferTask "d1" "wf1" "run1" 100,
       Stmt.insertTimerTask "d1" "wf1" "run1" 200,
       Stmt.updateLease 10 10] rfl rfl

/-! ## Claim C5 -/

/-- C5, counterexample.  The claim says the shard-already-exists error
exposes "the blocking row's current owner and current range token".  The
code interpolates `shard["shard_id"]` and `shard["range_id"]` — not the
owner: two stores whose blocking rows differ only in their owner yield the
very same error, so the owner is not exposed. -/
theorem C5_counterexample :
    (CreateShard (some { shardID := 5, owner := "owner-a", rangeID := 7 })
        { shardInfo := { shardID := 5, owner := "caller", rangeID := 9 } } none).2
      = (CreateShard (some { shardID := 5, owner := "owner-b", rangeID := 7 })
        { shardInfo := { shardID := 5, owner := "caller", rangeID := 9 } } none).2 ∧
    "owner-a" ≠ "owner-b" :=
  ⟨rfl, by decide⟩

/-- C5, amended: `CreateShard` inserts iff no row exists for the shard id,
and a rejected insert fails with a shard-already-exists error exposing the
blocking row's shard id and current range token (not its owner). -/
theorem C5_create_shard :
    (∀ request : CreateShardRequest,
      CreateShard none request none = (some request.shardInfo, none)) ∧
    (∀ (shard : ShardInfoRecord) (request : CreateShardRequest),
      CreateShard (some shard) request none
        = (some shard, some (.shardAlreadyExists shard.shardID shard.rangeID))) :=
  ⟨fun _ => rfl, fun _ _ => rfl⟩

/-! ## Claim C6 -/

lemma updateMutableState_not_check (executionInfo : ExecutionInfoRow)
    (replicationState : Option ReplicationStateFields) (versionHistories : Bool)
    (useCondition : Bool) (condition : Int) :
    (updateMutableState executionInfo replicationState versionHistories useCondition
      condition).isCheckExecution = false := by
  unfold updateMutableState
  by_cases h1 : replicationState.isSome <;> by_cases h2 : versionHistories <;>
    simp [h1, h2, Stmt.isCheckExecution]

lemma mem_ite_singleton {α : Type} {c : Prop} [Decidable c] {x s : α}
    (h : s ∈ (if c then [x] else [])) : s = x := by
  split at h
  · simpa using h
  · simp at h

/-- C6: in the batch built by `ResetWorkflowExecution`, (1) when the
fork-point run (`BaseRunID`) differs from the current run, the batch
contains the additional predicate statement against the fork-point run
whose `SET next_event_id` value and `IF next_event_id` condition are both
`BaseRunNextEventID` — a non-mutating check; and (2) when the fork-point
run is the current run, no such statement is added: every
`templateCheckWorkflowExecutionQuery` statement of the batch is then the
current-run assert of the `UpdateCurr = false` path, conditioned on
`request.Condition` and writing it back unchanged. -/
theorem C6_reset_base_run_check :
    (∀ (dShardID : Int) (request : ResetWorkflowExecutionRequest),
      ¬ request.baseRunID = request.currExecutionInfo.runID →
      Stmt.checkExecution request.currExecutionInfo.domainID
          request.currExecutionInfo.workflowID request.baseRunID
          request.baseRunNextEventID request.baseRunNextEventID
        ∈ ResetWorkflowExecutionBatch dShardID request) ∧
    (∀ (dShardID : Int) (request : ResetWorkflowExecutionRequest) (s : Stmt),
      request.baseRunID = request.currExecutionInfo.runID →
      s ∈ ResetWorkflowExecutionBatch dShardID request →
      s.isCheckExecution = true →
      (¬ request.updateCurr ∧
        s = .checkExecution request.currExecutionInfo.domainID
              request.currExecutionInfo.workflowID request.currExecutionInfo.runID
              request.condition request.condition)) := by
  constructor
  · intro dShardID request hb
    simp [ResetWorkflowExecutionBatch, hb]
  · intro dShardID request s hb hs hcheck
    simp only [ResetWorkflowExecutionBatch, List.mem_append] at hs
    rcases hs with ((((((((((((((hs | hs) | hs) | hs) | hs) | hs) | hs) | hs) | hs) | hs)
      | hs) | hs) | hs) | hs) | hs)
    · rw [List.mem_singleton] at hs
      subst hs
      cases hcr : request.currReplicationState <;> rw [hcr] at hcheck <;>
        simp [Stmt.isCheckExecution] at hcheck
    · rw [hb] at hs
      simp at hs
    · split at hs
      · rename_i hcu
        rcases List.mem_append.mp hs with hs2 | hs2
        · rcases List.mem_append.mp hs2 with hs3 | hs3
          · rw [List.mem_singleton] at hs3
            subst hs3
            rw [updateMutableState_not_check] at hcheck
            cases hcheck
          · obtain ⟨a, -, rfl⟩ := List.mem_map.mp hs3
            simp [Stmt.isCheckExecution] at hcheck
        · obtain ⟨a, -, rfl⟩ := List.mem_map.mp hs2
          simp [Stmt.isCheckExecution] at hcheck
      · rename_i hcu
        rw [List.mem_singleton] at hs
        exact ⟨hcu, hs⟩
    · obtain ⟨a, -, rfl⟩ := List.mem_map.mp hs
      simp [Stmt.isCheckExecution] at hcheck
    · obtain ⟨a, -, rfl⟩ := List.mem_map.mp hs
      simp [Stmt.isCheckExecution] at hcheck
    · rw [List.mem_singleton] at hs
      subst hs
      rw [updateMutableState_not_check] at hcheck
      cases hcheck
    · have := mem_ite_singleton hs
      subst this
      simp [Stmt.isCheckExecution] at hcheck
    · have := mem_ite_singleton hs
      subst this
      simp [Stmt.isCheckExecution] at hcheck
    · have := mem_ite_singleton hs
      subst this
      simp [Stmt.isCheckExecution] at hcheck
    · have := mem_ite_singleton hs
      subst this
      simp [Stmt.isCheckExecution] at hcheck
    · have := mem_ite_singleton hs
      subst this
      simp [Stmt.isCheckExecution] at hcheck
    · have := mem_ite_singleton hs
      subst this
      simp [Stmt.isCheckExecution] at hcheck
    · obtain ⟨a, -, rfl⟩ := List.mem_map.mp hs
      simp [Stmt.isCheckExecution] at hcheck
    · obtain ⟨a, -, rfl⟩ := List.mem_map.mp hs
      simp [Stmt.isCheckExecution] at hcheck
    · rw [List.mem_singleton] at hs
      subst hs
      simp [Stmt.isCheckExecution] at hcheck

/-- C6, witness: the fork-point check statement of a concrete reset request
whose base run differs from the current run. -/
theorem C6_witness :
    Stmt.checkExecution "d1" "wf1" "run-base" 4 4
      ∈ ResetWorkflowExecutionBatch 1 sampleResetRequest :=
  C6_reset_base_run_check.1 1 sampleResetRequest (by decide)

/-! ## Claim C7 -/

/-- C7: for `LeaseTaskList` with a non-empty list name: (1) when no list
row exists (and none appears before the CAS), a row is created with the
initial token and the response carries token 1; (2) when a row exists and
the caller supplies a token `> 0` differing from the stored token, the
call fails `ConditionFailed` without attempting any write; (3) otherwise
the stored token is conditionally incremented by exactly one (an update
gated on `IF range_id = stored`) and the response carries the old stored
token plus one. -/
theorem C7_lease_task_list :
    (∀ request : LeaseTaskListRequest, ¬ request.taskList = "" →
      LeaseTaskList request .notFound none none
        = { newState := some { rangeID := initialRangeID, ackLevel := 0,
                               kind := request.taskListKind },
            attemptedWrite := some (.insert initialRangeID 0 request.taskListKind),
            result := .ok { rangeID := 1, ackLevel := 0,
                            kind := request.taskListKind } }) ∧
    (∀ (request : LeaseTaskListRequest) (row : TaskListRow) (casRow : Option TaskListRow),
      ¬ request.taskList = "" → request.rangeID > 0 → ¬ request.rangeID = row.rangeID →
      LeaseTaskList request (.found row) casRow none
        = { newState := casRow, attemptedWrite := none,
            result := .error .conditionFailed }) ∧
    (∀ (request : LeaseTaskListRequest) (row : TaskListRow),
      ¬ request.taskList = "" → ¬ (request.rangeID > 0 ∧ ¬ request.rangeID = row.rangeID) →
      LeaseTaskList request (.found row) (some row) none
        = { newState := some { rangeID := row.rangeID + 1, ackLevel := row.ackLevel,
                               kind := row.kind },
            attemptedWrite := some (.update (row.rangeID + 1) row.ackLevel row.kind
                                      row.rangeID),
            result := .ok { rangeID := row.rangeID + 1, ackLevel := row.ackLevel,
                            kind := request.taskListKind } }) := by
  refine ⟨?_, ?_, ?_⟩
  · intro request hname
    unfold LeaseTaskList
    rw [if_neg hname]
    rfl
  · intro request row casRow hname h1 h2
    unfold LeaseTaskList
    rw [if_neg hname]
    dsimp only []
    rw [if_pos ⟨h1, h2⟩]
  · intro request row hname hmatch
    unfold LeaseTaskList
    rw [if_neg hname]
    dsimp only []
    rw [if_neg hmatch]
    simp

/-- C7, witness: the three clauses at concrete inputs — a fresh list
yielding token 1, a renew with a stale token 5 against stored token 7
failing without a write, and a steal (caller token 0) against stored token
7 yielding token 8. -/
theorem C7_witness :
    LeaseTaskList sampleLeaseRequest .notFound none none
      = { newState := some { rangeID := 1, ackLevel := 0, kind := 0 },
          attemptedWrite := some (.insert 1 0 0),
          result := .ok { rangeID := 1, ackLevel := 0, kind := 0 } } ∧
    LeaseTaskList { sampleLeaseRequest with rangeID := 5 }
        (.found { rangeID := 7, ackLevel := 2, kind := 0 }) none none
      = { newState := none, attemptedWrite := none,
          result := .error .conditionFailed } ∧
    LeaseTaskList sampleLeaseRequest
        (.found { rangeID := 7, ackLevel := 2, kind := 0 })
        (some { rangeID := 7, ackLevel := 2, kind := 0 }) none
      = { newState := some { rangeID := 8, ackLevel := 2, kind := 0 },
          attemptedWrite := some (.update 8 2 0 7),
          result := .ok { rangeID := 8, ackLevel := 2, kind := 0 } } :=
  ⟨C7_lease_task_list.1 sampleLeaseRequest (by decide),
   C7_lease_task_list.2.1 { sampleLeaseRequest with rangeID := 5 }
     { rangeID := 7, ackLevel := 2, kind := 0 } none (by decide) (by decide) (by decide),
   C7_lease_task_list.2.2 sampleLeaseRequest { rangeID := 7, ackLevel := 2, kind := 0 }
     (by decide) (by decide)⟩

/-! ## Claim C8 -/

/-- C8: every successful `CompleteTasksLessThan` returns the explicit
unknown-count sentinel (which is not zero); a failed call returns a
`ServiceBusyError` on throttling and an `InternalServiceError` on anything
else. -/
theorem C8_complete_tasks_less_than :
    (∀ request : CompleteTasksLessThanRequest,
      CompleteTasksLessThan request none = (unknownNumRowsAffected, none)) ∧
    ¬ unknownNumRowsAffected = 0 ∧
    (∀ request : CompleteTasksLessThanRequest,
      CompleteTasksLessThan request (some .throttling) = (0, some .serviceBusy)) ∧
    (∀ (request : CompleteTasksLessThanRequest) (e : StoreErrorKind),
      ¬ e = .throttling →
      CompleteTasksLessThan request (some e) = (0, some .internalService)) := by
  refine ⟨fun _ => rfl, by decide, fun _ => rfl, ?_⟩
  intro request e he
  cases e with
  | throttling => exact absurd rfl he
  | timeout => rfl
  | other => rfl

/-- C8, witness: the sentinel on success and the internal error on a
timeout, at a concrete request. -/
theorem C8_witness :
    CompleteTasksLessThan
        { domainID := "d1", taskListName := "tl1", taskType := 0, taskID := 50 } none
      = (unknownNumRowsAffected, none) ∧
    CompleteTasksLessThan
        { domainID := "d1", taskListName := "tl1", taskType := 0, taskID := 50 }
        (some .timeout)
      = (0, some .internalService) :=
  ⟨C8_complete_tasks_less_than.1
     { domainID := "d1", taskListName := "tl1", taskType := 0, taskID := 50 },
   C8_complete_tasks_less_than.2.2.2
     { domainID := "d1", taskListName := "tl1", taskType := 0, taskID := 50 }
     .timeout (by decide)⟩

/-! ## Claim C9 -/

/-- C9: a `CreateWorkflowExecution` request in `WorkflowIDReuse` mode whose
replication state is nil is silently downgraded to `ContinueAsNew`:
`CreateWorkflowExecutionWithinBatch` leaves the request with mode
`ContinueAsNew` (the in-place mutation through the shared pointer), and
the current-execution-row statement it emits is the
`templateUpdateCurrentWorkflowExecutionQuery` variant conditioned only on
the previous run id, without the previous-last-write-version and
previous-state predicates. -/
theorem C9_workflow_id_reuse_downgrade :
    ∀ (dShardID : Int) (request : CreateWorkflowExecutionRequest),
      request.createWorkflowMode = .workflowIDReuse →
      request.replicationState = none →
      ValidateCreateWorkflowStateCloseStatus request.state request.closeStatus = none →
      CreateWorkflowExecutionWithinBatch dShardID request
        = .ok { request := { request with createWorkflowMode := .continueAsNew },
                stmts := [.updateCurrentExecution request.runID request.requestID
                            request.state request.closeStatus emptyVersion emptyVersion
                            request.domainID request.workflowID request.previousRunID,
                          .insertExecution request.domainID request.workflowID
                            request.runID request.nextEventID
                            (if request.versionHistories then .withVersionHistories
                             else .plain)] } := by
  intro dShardID request hm hrepl hval
  unfold CreateWorkflowExecutionWithinBatch
  rw [hval]
  dsimp only []
  rw [if_pos ⟨hrepl, hm⟩]
  simp [hrepl]

/-- C9, witness: the downgrade at a concrete request. -/
theorem C9_witness :
    CreateWorkflowExecutionWithinBatch 1 (sampleCreateRequest .workflowIDReuse .running 0)
      = .ok { request := sampleCreateRequest .continueAsNew .running 0,
              stmts := [.updateCurrentExecution "run1" "creq1" .running 0 emptyVersion
                          emptyVersion "d1" "wf1" "run0",
                        .insertExecution "d1" "wf1" "run1" 5 .plain] } :=
  C9_workflow_id_reuse_downgrade 1 (sampleCreateRequest .workflowIDReuse .running 0)
    rfl rfl (by decide)

/-! ## Claim C10 -/

lemma getTasksLoop_length_le (batchSize : Int) (rows : List TaskRowRecord) :
    ∀ acc : List Int, (acc.length : Int) < batchSize →
      ((getTasksLoop batchSize rows acc).length : Int) ≤ batchSize := by
  induction rows with
  | nil =>
    intro acc h
    unfold getTasksLoop
    exact le_of_lt h
  | cons row rest ih =>
    intro acc h
    cases hr : row.taskID with
    | none =>
      simp only [getTasksLoop, hr]
      exact ih acc h
    | some taskID =>
      simp only [getTasksLoop, hr]
      by_cases hlen : ((acc ++ [taskID]).length : Int) = batchSize
      · rw [if_pos hlen]
        exact le_of_eq hlen
      · rw [if_neg hlen]
        apply ih
        have hlen2 : ((acc ++ [taskID]).length : Int) = (acc.length : Int) + 1 := by
          simp
        omega

/-- C10, counterexample.  The claim says a successful response never
contains more tasks than the requested batch size.  The loop stops only
when the collected count EQUALS `BatchSize`, so with `BatchSize = 0` the
break never fires: a store holding one task in range yields a successful
response with one task, exceeding the batch size. -/
theorem C10_counterexample :
    (GetTasks ({ domainID := "d1", taskList := "tl1", taskType := 0, readLevel := 0,
                 maxReadLevel := some 5, batchSize := 0 }) [⟨some 1⟩] none).result
      = .ok [1] ∧
    ¬ ((([1] : List Int).length : Int) ≤ (0 : Int)) :=
  ⟨rfl, by decide⟩

/-- C10, amended: a nil `MaxReadLevel` fails with an internal error; a
`ReadLevel` above `MaxReadLevel` yields an empty successful response
without issuing any store query; otherwise the response is the loop's
collection, and when the requested batch size is positive it never
contains more tasks than the batch size (for a batch size `≤ 0` the
equality break never fires — see the counterexample). -/
theorem C10_get_tasks :
    (∀ (request : GetTasksRequest) (rows : List TaskRowRecord)
        (closeErr : Option StoreErrorKind), request.maxReadLevel = none →
      GetTasks request rows closeErr
        = { queried := false, result := .error .internalService }) ∧
    (∀ (request : GetTasksRequest) (rows : List TaskRowRecord)
        (closeErr : Option StoreErrorKind) (m : Int), request.maxReadLevel = some m →
      request.readLevel > m →
      GetTasks request rows closeErr = { queried := false, result := .ok [] }) ∧
    (∀ (request : GetTasksRequest) (rows : List TaskRowRecord) (m : Int),
      request.maxReadLevel = some m → ¬ request.readLevel > m →
      GetTasks request rows none
        = { queried := true, result := .ok (getTasksLoop request.batchSize rows []) }) ∧
    (∀ (batchSize : Int) (rows : List TaskRowRecord), 0 < batchSize →
      ((getTasksLoop batchSize rows []).length : Int) ≤ batchSize) := by
  refine ⟨?_, ?_, ?_, ?_⟩
  · intro request rows closeErr hmax
    simp [GetTasks, hmax]
  · intro request rows closeErr m hmax hgt
    simp [GetTasks, hmax, hgt]
  · intro request rows m hmax hle
    simp [GetTasks, hmax, hle]
  · intro batchSize rows hpos
    exact getTasksLoop_length_le batchSize rows [] (by simpa using hpos)

/-- C10, witness: the amended clauses at concrete inputs — a nil max read
level, a read level above the max, and a batch size of 2 capping three
in-range rows at two tasks. -/
theorem C10_witness :
    GetTasks ({ domainID := "d1", taskList := "tl1", taskType := 0, readLevel := 0,
                maxReadLevel := none, batchSize := 3 }) [] none
      = { queried := false, result := .error .internalService } ∧
    GetTasks ({ domainID := "d1", taskList := "tl1", taskType := 0, readLevel := 9,
                maxReadLevel := some 5, batchSize := 3 }) [] none
      = { queried := false, result := .ok [] } ∧
    GetTasks ({ domainID := "d1", taskList := "tl1", taskType := 0, readLevel := 0,
                maxReadLevel := some 5, batchSize := 2 })
        [⟨some 1⟩, ⟨some 2⟩, ⟨some 3⟩] none
      = { queried := true,
          result := .ok (getTasksLoop 2
            [⟨some 1⟩, ⟨some 2⟩, ⟨some 3⟩] []) } ∧
    ((getTasksLoop 2
        [⟨some 1⟩, ⟨some 2⟩, ⟨some 3⟩] []).length
      : Int) ≤ 2 :=
  ⟨C10_get_tasks.1 _ [] none rfl,
   C10_get_tasks.2.1 _ [] none 5 rfl (by decide),
   C10_get_tasks.2.2.1 _ _ 5 rfl (by decide),
   C10_get_tasks.2.2.2 2 _ (by decide)⟩

end CadenceCassandra
